import Mathlib

/-!
Verification of the moactl/rosa command-line client against its
specification.  The Go sources are shallowly embedded: pure helpers become
Lean functions; each cobra `run` entry point becomes a function from the
command's flags/arguments and an environment record (the results that the
remote OCM/AWS services and the interactive prompts would return) to the
ordered list of operations the command issues plus its final outcome
(normal return, or `os.Exit` with a code and the reported message).
Machine integers (`time.Duration`, node counts) are modelled as `Int`;
times are nanoseconds since the epoch.
-/

namespace Moactl

/-- Process outcome of a command's `run` function: normal return (the
process then finishes with exit status 0) or `os.Exit code` after
reporting `msg`. -/
inductive Outcome where
  | ok
  | exited (code : Nat) (msg : String)
deriving DecidableEq

/-- Exit status of the process for an outcome (a normal return exits 0). -/
def exitCode : Outcome → Nat
  | Outcome.ok => 0
  | Outcome.exited c _ => c

/-- Character class of the cluster-key rule: letters, digits, dashes and
underscores. -/
def isClusterKeyChar (c : Char) : Bool :=
  c.isAlpha || c.isDigit || c == '-' || c == '_'

/-- Modelled from the spec: `IsValidClusterKey` (pkg/cluster resp. pkg/ocm,
not among the given source files) accepts a cluster key exactly when it
consists only of letters, digits, dashes and underscores. -/
def IsValidClusterKey (key : String) : Bool :=
  key.data.all isClusterKeyChar

/-- The error message every command reports for an invalid cluster key. -/
def clusterKeyInvalidMsg (key : String) : String :=
  "Cluster name, identifier or external identifier '" ++ key ++
    "' isn't valid: it must contain only letters, digits, dashes and underscores"

/-- Go `strings.Join(list, " ")`. -/
def joinSpace : List String → String
  | [] => ""
  | [x] => x
  | x :: xs => x ++ " " ++ joinSpace xs

/-- cmd/create/cluster `validateVersion`: a non-empty version must be a
member of the fetched list and is returned with the "openshift-v" prefix
restored; the empty version passes through unchanged. -/
def validateVersion (version : String) (versionList : List String) :
    Except String String :=
  if version ≠ "" then
    if versionList.any (fun v => v == version) then
      Except.ok ("openshift-v" ++ version)
    else
      Except.error ("A valid version number must be specified\nValid versions: " ++
        joinSpace versionList)
  else
    Except.ok version

/-- cmd/create/cluster `validateMachineType`: a non-empty machine type must
be a member of the fetched list and is returned unchanged; the empty
machine type passes through. -/
def validateMachineType (machineType : String) (machineTypeList : List String) :
    Except String String :=
  if machineType ≠ "" then
    if machineTypeList.any (fun v => v == machineType) then
      Except.ok machineType
    else
      Except.error ("A valid machine type number must be specified\nValid machine types: " ++
        joinSpace machineTypeList)
  else
    Except.ok machineType

/-- Go `strings.Replace(s, pat, repl, 1)`: replace the first occurrence of
`pat` in `s` by `repl` (with the empty pattern inserted once in front). -/
def replaceFirst (pat repl : List Char) : List Char → List Char
  | [] => if pat = [] then repl else []
  | c :: rest =>
    if pat.isPrefixOf (c :: rest) then repl ++ (c :: rest).drop pat.length
    else c :: replaceFirst pat repl rest

/-- cmd/create/cluster `getVersionList` applied to the version IDs fetched
from the API: each ID goes through `strings.Replace(id, "openshift-v", "", 1)`. -/
def getVersionList (ids : List String) : List String :=
  ids.map (fun id => String.mk (replaceFirst "openshift-v".data [] id.data))

/-- The transformation as the specification words it: strip the
"openshift-v" prefix from the version ID (an ID without the prefix is left
alone).  Kept separate so that it can be compared with `getVersionList`. -/
def stripOpenshiftPrefixSpec (id : String) : String :=
  if "openshift-v".data.isPrefixOf id.data then
    String.mk (id.data.drop "openshift-v".length)
  else id

/-- Nanoseconds per second (`time.Second`). -/
def nanosPerSecond : Int := 1000000000

/-- Go `Time.Round(time.Second)`: the nearest multiple of a second, with
halfway values rounded up. -/
def roundToSecond (t : Int) : Int :=
  ((t + 500000000).fdiv nanosPerSecond) * nanosPerSecond

/-- cmd/create/cluster `validateExpiration`.  `parse` stands for the Go
standard library's RFC3339(Nano) parser and `now` for `time.Now()`, both
outside this repository; `expirationTime` and `expirationDuration` are the
two flags (`time.Duration` in nanoseconds, `0` meaning unset). -/
def validateExpiration (parse : String → Except String Int) (now : Int)
    (expirationTime : String) (expirationDuration : Int) : Except String Int :=
  if expirationTime.length > 0 ∧ expirationDuration ≠ 0 then
    Except.error "At most one of 'expiration-time' or 'expiration' may be specified"
  else if expirationTime.length > 0 then
    match parse expirationTime with
    | Except.error e => Except.error ("Failed to parse expiration-time: " ++ e)
    | Except.ok t =>
      if expirationDuration ≠ 0 then Except.ok (roundToSecond (now + expirationDuration))
      else Except.ok t
  else if expirationDuration ≠ 0 then
    Except.ok (roundToSecond (now + expirationDuration))
  else
    Except.ok 0

/-- cmd/describe/cluster constants for the details page. -/
def StageURL : String := "https://qaprodauth.cloud.redhat.com/openshift/details/"

/-- Production details page. -/
def ProductionURL : String := "https://cloud.redhat.com/openshift/details/"

/-- Stage API environment. -/
def StageEnv : String := "https://api.stage.openshift.com"

/-- Production API environment. -/
def ProductionEnv : String := "https://api.openshift.com"

/-- cmd/describe/cluster `getDetailsLink`. -/
def getDetailsLink (environment : String) : String :=
  if environment = StageEnv then StageURL
  else if environment = ProductionEnv then ProductionURL
  else ""

/-- cmd/create/cluster `clusterprovider.Spec`, the configuration handed to
`CreateCluster` (`private` is renamed `priv`, a Lean keyword; the CIDR
blocks are carried as their textual form). -/
structure Spec where
  name : String
  region : String
  multiAZ : Bool
  version : String
  expiration : Int
  computeMachineType : String
  computeNodes : Int
  machineCIDR : String
  serviceCIDR : String
  podCIDR : String
  hostPrefix : Int
  priv : Bool
deriving DecidableEq

/-- An operation a command issues, in program order.  Interactive prompts
are not events (they are local terminal I/O). -/
inductive Event where
  | awsClientBuild
  | awsGetCreator
  | ocmConnectionBuild
  | getCluster (key : String)
  | getIngresses (clusterID : String)
  | getScheduledUpgrade (clusterID : String)
  | getRegions
  | getVersions
  | getMachineTypes
  | createCluster (spec : Spec)
  | userBuild (username : String)
  | addUserToGroup (group clusterID username : String)
  | getAddOnParameters (addOnID : String)
  | installAddOn (addOnID : String)
  | getIdentityProviders (clusterID : String)
  | deleteIdentityProvider (idpID : String)
  | watchLogs (clusterID : String)
deriving DecidableEq

/-- Whether an event reaches the network.  `userBuild` is the local
`cmv1.NewUser().ID(u).Build()` construction; building the OCM connection is
remote because `ClientBuilder.Build` fetches fresh authentication tokens. -/
def isRemote : Event → Bool
  | Event.userBuild _ => false
  | _ => true

/-- Prepend the event a stage itself issues to the rest of the run. -/
def consEv (e : Event) (r : List Event × Outcome) : List Event × Outcome :=
  (e :: r.1, r.2)

/-! ## The OCM connection builder (`ClientBuilder.Build`). -/

/-- The locally cached configuration (`ocm.Config`); a `nil` scopes slice is
`none`. -/
structure Config where
  tokenURL : String
  clientID : String
  clientSecret : String
  scopes : Option (List String)
  url : String
  accessToken : String
  refreshToken : String
  insecure : Bool
deriving DecidableEq

/-- The properties explicitly set on the SDK connection builder; `none`
means the property was left to its default. -/
structure ConnProps where
  tokenURL : Option String
  client : Option (String × String)
  scopes : Option (List String)
  url : Option String
  tokens : Option (List String)
  insecure : Bool
deriving DecidableEq

/-- The client handle `Build` returns on success. -/
structure OcmClient where
  conn : ConnProps
deriving DecidableEq

/-- The builder's own state: whether a logger was supplied and the
explicitly supplied configuration, if any. -/
structure ClientBuilder where
  logger : Bool
  cfg : Option Config
deriving DecidableEq

/-- Results of the effects `Build` performs: loading the config file
(`ok none` = no saved login), building the OCM logger, the SDK builder's
`Build`, and the token fetch `conn.Tokens(10 * time.Minute)`. -/
structure BuildEnv where
  load : Except String (Option Config)
  ocmLoggerBuild : Except String Unit
  sdkBuild : ConnProps → Except String Unit
  fetchTokens : ConnProps → Except String Unit

/-- The property-setting portion of `Build`: only configuration values that
are present/non-empty are set on the SDK builder (the insecure flag is
always set). -/
def buildConnProps (cfg : Config) : ConnProps :=
  let b : ConnProps :=
    { tokenURL := none, client := none, scopes := none, url := none,
      tokens := none, insecure := false }
  let b := if cfg.tokenURL ≠ "" then { b with tokenURL := some cfg.tokenURL } else b
  let b := if cfg.clientID ≠ "" ∨ cfg.clientSecret ≠ "" then
      { b with client := some (cfg.clientID, cfg.clientSecret) } else b
  let b := if cfg.scopes.isSome then { b with scopes := cfg.scopes } else b
  let b := if cfg.url ≠ "" then { b with url := some cfg.url } else b
  let tokens := (if cfg.accessToken ≠ "" then [cfg.accessToken] else []) ++
    (if cfg.refreshToken ≠ "" then [cfg.refreshToken] else [])
  let b := if tokens.length > 0 then { b with tokens := some tokens } else b
  { b with insecure := cfg.insecure }

/-- `ClientBuilder.Build`: resolve the configuration (loading the cached one
when none was supplied), require a logger, construct the connection from the
non-empty properties, then refresh the tokens; any failure yields an error
and no client. -/
def ClientBuilder.Build (b : ClientBuilder) (env : BuildEnv) :
    Except String OcmClient :=
  match (match b.cfg with
         | some c => Except.ok c
         | none =>
           match env.load with
           | Except.error e => Except.error ("Failed to load config file: " ++ e)
           | Except.ok none => Except.error "Not logged in, run the 'rosa login' command"
           | Except.ok (some c) => Except.ok c) with
  | Except.error e => Except.error e
  | Except.ok cfg =>
    if b.logger = false then Except.error "Logger is mandatory"
    else
      match env.ocmLoggerBuild with
      | Except.error e => Except.error e
      | Except.ok _ =>
        let props := buildConnProps cfg
        match env.sdkBuild props with
        | Except.error e => Except.error e
        | Except.ok _ =>
          match env.fetchTokens props with
          | Except.error _ =>
            Except.error "Error creating connection. Not able to get authentication token"
          | Except.ok _ => Except.ok { conn := props }

/-! ## The describe-cluster command (cmd/describe/cluster). -/

/-- `cmv1.ClusterState` values the commands compare against. -/
inductive ClusterState where
  | pending
  | installing
  | ready
  | error
  | uninstalling
  | other (s : String)
deriving DecidableEq

/-- The state as printed by `%s`. -/
def ClusterState.str : ClusterState → String
  | ClusterState.pending => "pending"
  | ClusterState.installing => "installing"
  | ClusterState.ready => "ready"
  | ClusterState.error => "error"
  | ClusterState.uninstalling => "uninstalling"
  | ClusterState.other s => s

/-- A cluster ingress as the describe command reads it. -/
structure Ingress where
  isDefault : Bool
  listeningInternal : Bool
deriving DecidableEq

/-- A scheduled upgrade: its version and the formatted next-run time. -/
structure Upgrade where
  version : String
  nextRunStr : String
deriving DecidableEq

/-- The fields of the fetched cluster that the describe command reads.
Formatted timestamps are carried as strings (the Go formatting is standard
library code). -/
structure DescCluster where
  id : String
  name : String
  displayName : String
  externalID : String
  creatorARNProp : String
  state : ClusterState
  statusState : ClusterState
  statusDNSReady : Bool
  provisionErrorMessage : String
  provisionErrorCode : String
  dnsBaseDomain : String
  apiURL : String
  consoleURL : String
  regionID : String
  channelGroup : String
  creationTimestampStr : String
  nodesMaster : Int
  nodesInfra : Int
  nodesCompute : Int
  autoscaleCompute : Option (Int × Int)
deriving DecidableEq

/-- Results of the remote and library calls the describe command makes.
`arnParseAccountID` stands for `arn.Parse(...).AccountID`. -/
structure DescribeEnv where
  awsClientBuild : Except String Unit
  getCreator : Except String String
  ocmConnBuild : Except String Unit
  connURL : String
  getCluster : Except String DescCluster
  arnParseAccountID : String → Except String String
  getIngresses : Except String (List Ingress)
  getScheduledUpgrade : Except String (Option Upgrade)

/-- The `phase` annotation next to the state. -/
def describePhase (c : DescCluster) : String :=
  let phase := ""
  let phase := if c.state = ClusterState.pending then "(Preparing account)" else phase
  if c.state = ClusterState.installing then
    let phase := if c.statusDNSReady = false then "(DNS setup in progress)" else phase
    if c.provisionErrorMessage ≠ "" then
      let errorCode := if c.provisionErrorCode ≠ "" then c.provisionErrorCode ++ " - " else ""
      "(" ++ errorCode ++ "Install is taking longer than expected)"
    else phase
  else phase

/-- The `Nodes:` line (autoscaled or fixed compute count). -/
def nodesStr (c : DescCluster) : String :=
  match c.autoscaleCompute with
  | some (mn, mx) =>
    "Nodes:                      Master: " ++ toString c.nodesMaster ++
      ", Infra: " ++ toString c.nodesInfra ++
      ", Compute (Autoscaled): " ++ toString mn ++ "-" ++ toString mx ++ "\n"
  | none =>
    "Nodes:                      Master: " ++ toString c.nodesMaster ++
      ", Infra: " ++ toString c.nodesInfra ++
      ", Compute: " ++ toString c.nodesCompute ++ "\n"

/-- The short cluster description (the first `fmt.Sprintf` block). -/
def baseDescription (clusterName : String) (c : DescCluster) (accountID : String)
    (isPrivate : String) : String :=
  "Name:                       " ++ clusterName ++ "\n" ++
  "DNS:                        " ++ c.name ++ "." ++ c.dnsBaseDomain ++ "\n" ++
  "ID:                         " ++ c.id ++ "\n" ++
  "External ID:                " ++ c.externalID ++ "\n" ++
  "AWS Account:                " ++ accountID ++ "\n" ++
  "API URL:                    " ++ c.apiURL ++ "\n" ++
  "Console URL:                " ++ c.consoleURL ++ "\n" ++
  nodesStr c ++
  "Region:                     " ++ c.regionID ++ "\n" ++
  "State:                      " ++ c.state.str ++ " " ++ describePhase c ++ "\n" ++
  "Channel Group:              " ++ c.channelGroup ++ "\n" ++
  "Private:                    " ++ isPrivate ++ "\n" ++
  "Created:                    " ++ c.creationTimestampStr ++ "\n"

/-- The full printed description: the base block, then the conditional
details-page, scheduled-upgrade and provisioning-error additions, in source
order. -/
def describeOutput (c : DescCluster) (accountID : String) (isPrivate : String)
    (detailsPage : String) (upgrade : Option Upgrade) : String :=
  let clusterName := if c.displayName = "" then c.name else c.displayName
  let str := baseDescription clusterName c accountID isPrivate
  let str := if detailsPage ≠ "" then
      str ++ "Details Page:               " ++ detailsPage ++ c.id ++ "\n"
    else str
  let str := match upgrade with
    | some u => str ++ "Scheduled upgrade:          " ++ u.version ++ " on " ++
        u.nextRunStr ++ "\n"
    | none => str
  let str := if c.statusState = ClusterState.error then
      str ++ "Provisioning Error Code:    " ++ c.provisionErrorCode ++ "\n" ++
        "Provisioning Error Message: " ++ c.provisionErrorMessage ++ "\n"
    else str
  str

/-- cmd/describe/cluster `run`: argument checks, cluster-key validation,
AWS and OCM clients, fetch and print.  The result carries the issued
events, the outcome and the printed description ("" when the run exited
early).  The `GetIngresses` error is ignored by the source, which only
loops over the returned slice. -/
def describeRun (clusterKeyFlag : String) (argv : List String) (env : DescribeEnv) :
    List Event × Outcome × String :=
  if clusterKeyFlag = "" ∧ argv.length ≠ 1 then
    ([], Outcome.exited 1
      "Expected exactly one command line argument or flag containing the name or identifier of the cluster", "")
  else
    let clusterKey := if clusterKeyFlag = "" then argv.headD "" else clusterKeyFlag
    if IsValidClusterKey clusterKey = false then
      ([], Outcome.exited 1 (clusterKeyInvalidMsg clusterKey), "")
    else
      match env.awsClientBuild with
      | Except.error e =>
        ([Event.awsClientBuild], Outcome.exited 1 ("Failed to create AWS client: " ++ e), "")
      | Except.ok _ =>
      match env.getCreator with
      | Except.error e =>
        ([Event.awsClientBuild, Event.awsGetCreator],
         Outcome.exited 1 ("Failed to get AWS creator: " ++ e), "")
      | Except.ok _creatorARN =>
      match env.ocmConnBuild with
      | Except.error e =>
        ([Event.awsClientBuild, Event.awsGetCreator, Event.ocmConnectionBuild],
         Outcome.exited 1 ("Failed to create OCM connection: " ++ e), "")
      | Except.ok _ =>
      match env.getCluster with
      | Except.error e =>
        ([Event.awsClientBuild, Event.awsGetCreator, Event.ocmConnectionBuild,
          Event.getCluster clusterKey],
         Outcome.exited 1 ("Failed to get cluster '" ++ clusterKey ++ "': " ++ e), "")
      | Except.ok cluster =>
      match env.arnParseAccountID cluster.creatorARNProp with
      | Except.error _ =>
        ([Event.awsClientBuild, Event.awsGetCreator, Event.ocmConnectionBuild,
          Event.getCluster clusterKey],
         Outcome.exited 1 ("Failed to parse creator ARN for cluster '" ++ clusterKey ++ "'"), "")
      | Except.ok accountID =>
        let ingresses := match env.getIngresses with
          | Except.ok l => l
          | Except.error _ => []
        let isPrivate := if ingresses.any (fun i => i.isDefault && i.listeningInternal)
          then "Yes" else "No"
        match env.getScheduledUpgrade with
        | Except.error e =>
          ([Event.awsClientBuild, Event.awsGetCreator, Event.ocmConnectionBuild,
            Event.getCluster clusterKey, Event.getIngresses cluster.id,
            Event.getScheduledUpgrade cluster.id],
           Outcome.exited 1
             ("Failed to get scheduled upgrades for cluster '" ++ clusterKey ++ "': " ++ e), "")
        | Except.ok upgrade =>
          let detailsPage := getDetailsLink env.connURL
          ([Event.awsClientBuild, Event.awsGetCreator, Event.ocmConnectionBuild,
            Event.getCluster clusterKey, Event.getIngresses cluster.id,
            Event.getScheduledUpgrade cluster.id],
           Outcome.ok,
           describeOutput cluster accountID isPrivate detailsPage upgrade)

/-! ## The install-addon command (cmd/install/addon). -/

/-- The fields of a fetched cluster that the addon, user and idp commands
read. -/
structure BasicCluster where
  id : String
  state : ClusterState
deriving DecidableEq

/-- An add-on parameter definition as fetched from the API. -/
structure AddOnParameter where
  id : String
  name : String
  descriptionText : String
  defaultValue : String
  required : Bool
  valueType : String
  validationRegex : String
deriving DecidableEq

/-- A resolved add-on parameter (`clusterprovider.AddOnParam`). -/
structure AddOnParam where
  key : String
  val : String
deriving DecidableEq

/-- Results of the remote calls and interactive prompts of the addon
command.  The prompt functions take the parameter being asked about;
`regexMatch` stands for `regexp.MatchString` (pattern, value). -/
structure AddonEnv where
  awsClientBuild : Except String Unit
  getCreator : Except String String
  ocmConnBuild : Except String Unit
  getCluster : Except String BasicCluster
  confirm : Bool
  getAddOnParameters : Except String (List AddOnParameter)
  promptBool : AddOnParameter → Except String Bool
  promptIPNet : AddOnParameter → Except String String
  promptInt : AddOnParameter → Except String Int
  promptString : AddOnParameter → Except String String
  regexMatch : String → String → Except String Bool
  installAddOn : Except String Unit

/-- The `switch param.ValueType()` block of the parameter loop: prompt
according to the value type; an unknown type leaves the value empty with
no error. -/
def addonParamValue (env : AddonEnv) (p : AddOnParameter) : Except String String :=
  if p.valueType = "boolean" then
    (env.promptBool p).map (fun b => if b then "true" else "false")
  else if p.valueType = "cidr" then
    env.promptIPNet p
  else if p.valueType = "number" then
    (env.promptInt p).map (fun n => toString n)
  else if p.valueType = "string" then
    env.promptString p
  else
    Except.ok ""

/-- The remainder of one loop iteration: a prompt error exits 1, then the
validation regex is checked when present; `error` carries the `os.Exit 1`
outcome. -/
def addonValidateParam (env : AddonEnv) (p : AddOnParameter)
    (res : Except String String) : Except Outcome String :=
  match res with
  | Except.error e =>
    Except.error (Outcome.exited 1 ("Expected a valid value for '" ++ p.id ++ "': " ++ e))
  | Except.ok val =>
    if p.validationRegex ≠ "" then
      match env.regexMatch p.validationRegex val with
      | Except.ok true => Except.ok val
      | _ =>
        Except.error (Outcome.exited 1
          ("Expected " ++ val ++ " to match /" ++ p.validationRegex ++ "/"))
    else
      Except.ok val

/-- One iteration of the `parameters.Each` loop. -/
def addonProcessParam (env : AddonEnv) (p : AddOnParameter) : Except Outcome String :=
  addonValidateParam env p (addonParamValue env p)

/-- The whole `parameters.Each` loop (an empty list is a no-op; an exit
inside the loop aborts the command). -/
def addonProcessParams (env : AddonEnv) : List AddOnParameter → Except Outcome (List AddOnParam)
  | [] => Except.ok []
  | p :: rest =>
    match addonProcessParam env p with
    | Except.error o => Except.error o
    | Except.ok val =>
      match addonProcessParams env rest with
      | Except.error o => Except.error o
      | Except.ok ps => Except.ok ({ key := p.id, val := val } :: ps)

/-- Events issued before the addon command reaches the ready-state check. -/
def addonPrefix (clusterKey : String) : List Event :=
  [Event.awsClientBuild, Event.awsGetCreator, Event.ocmConnectionBuild,
   Event.getCluster clusterKey]

/-- cmd/install/addon `run`: argument and cluster-key checks, clients,
ready-state gate, confirmation (declining exits 0), parameter collection
and the final installation call. -/
def addonRun (clusterKey : String) (argv : List String) (env : AddonEnv) :
    List Event × Outcome :=
  if argv.length ≠ 1 then
    ([], Outcome.exited 1
      "Expected exactly one command line parameters containing the identifier of the add-on.")
  else
    let addOnID := argv.headD ""
    if addOnID = "" then
      ([], Outcome.exited 1 "Add-on ID is required.")
    else if IsValidClusterKey clusterKey = false then
      ([], Outcome.exited 1 (clusterKeyInvalidMsg clusterKey))
    else
      match env.awsClientBuild with
      | Except.error e =>
        ([Event.awsClientBuild], Outcome.exited 1 ("Failed to create AWS client: " ++ e))
      | Except.ok _ =>
      match env.getCreator with
      | Except.error e =>
        ([Event.awsClientBuild, Event.awsGetCreator],
         Outcome.exited 1 ("Failed to get AWS creator: " ++ e))
      | Except.ok _ =>
      match env.ocmConnBuild with
      | Except.error e =>
        ([Event.awsClientBuild, Event.awsGetCreator, Event.ocmConnectionBuild],
         Outcome.exited 1 ("Failed to create OCM connection: " ++ e))
      | Except.ok _ =>
      match env.getCluster with
      | Except.error e =>
        (addonPrefix clusterKey,
         Outcome.exited 1 ("Failed to get cluster '" ++ clusterKey ++ "': " ++ e))
      | Except.ok cluster =>
        if cluster.state ≠ ClusterState.ready then
          (addonPrefix clusterKey,
           Outcome.exited 1 ("Cluster '" ++ clusterKey ++ "' is not yet ready"))
        else if env.confirm = false then
          (addonPrefix clusterKey, Outcome.exited 0 "")
        else
          match env.getAddOnParameters with
          | Except.error e =>
            (addonPrefix clusterKey ++ [Event.getAddOnParameters addOnID],
             Outcome.exited 1
               ("Failed to get add-on '" ++ addOnID ++ "' parameters: " ++ e))
          | Except.ok parameters =>
            match addonProcessParams env parameters with
            | Except.error o =>
              (addonPrefix clusterKey ++ [Event.getAddOnParameters addOnID], o)
            | Except.ok _params =>
              match env.installAddOn with
              | Except.error e =>
                (addonPrefix clusterKey ++
                  [Event.getAddOnParameters addOnID, Event.installAddOn addOnID],
                 Outcome.exited 1
                   ("Failed to add add-on installation '" ++ addOnID ++ "' for cluster '" ++
                    clusterKey ++ "': " ++ e))
              | Except.ok _ =>
                (addonPrefix clusterKey ++
                  [Event.getAddOnParameters addOnID, Event.installAddOn addOnID],
                 Outcome.ok)

/-! ## The create-user command (cmd/create/user). -/

/-- Results of the remote calls and prompts of the create-user command.
`userBuild u` is the result of `cmv1.NewUser().ID(u).Build()` and
`addUser group u` the result of the group-membership `Add` request. -/
structure UserEnv where
  awsClientBuild : Except String Unit
  getCreator : Except String String
  ocmConnBuild : Except String Unit
  getCluster : Except String BasicCluster
  promptClusterAdmins : Except String String
  promptDedicatedAdmins : Except String String
  userBuild : String → Except String Unit
  addUser : String → String → Except String Unit

/-- One admin loop: every username of the list is processed in order; a
failed build skips only that username's add request, a failed add request
is reported and the loop continues (`continue` in the source). -/
def addUsersEvents (env : UserEnv) (group clusterID : String) :
    List String → List Event
  | [] => []
  | u :: rest =>
    match env.userBuild u with
    | Except.error _ => Event.userBuild u :: addUsersEvents env group clusterID rest
    | Except.ok _ =>
      Event.userBuild u :: Event.addUserToGroup group clusterID u ::
        addUsersEvents env group clusterID rest

/-- Events issued before the create-user command reaches the ready-state
check. -/
def userPrefix (clusterKey : String) : List Event :=
  [Event.awsClientBuild, Event.awsGetCreator, Event.ocmConnectionBuild,
   Event.getCluster clusterKey]

/-- The interactive fallback of the create-user command: when both flags
are empty, both lists are prompted for (a prompt failure exits 1). -/
def resolveAdmins (env : UserEnv) (clusterAdminsFlag dedicatedAdminsFlag : String) :
    Except Outcome (String × String) :=
  if clusterAdminsFlag = "" ∧ dedicatedAdminsFlag = "" then
    match env.promptClusterAdmins with
    | Except.error _ =>
      Except.error (Outcome.exited 1 "Expected a commad-separated list of usernames")
    | Except.ok ca =>
      match env.promptDedicatedAdmins with
      | Except.error _ =>
        Except.error (Outcome.exited 1 "Expected a commad-separated list of usernames")
      | Except.ok da => Except.ok (ca, da)
  else Except.ok (clusterAdminsFlag, dedicatedAdminsFlag)

/-- cmd/create/user `run`: cluster-key check, clients, ready-state gate,
the interactive fallback when both flags are empty, then the two admin
loops. -/
def userRun (clusterKey clusterAdminsFlag dedicatedAdminsFlag : String)
    (env : UserEnv) : List Event × Outcome :=
  if IsValidClusterKey clusterKey = false then
    ([], Outcome.exited 1 (clusterKeyInvalidMsg clusterKey))
  else
    match env.awsClientBuild with
    | Except.error e =>
      ([Event.awsClientBuild], Outcome.exited 1 ("Failed to create AWS client: " ++ e))
    | Except.ok _ =>
    match env.getCreator with
    | Except.error e =>
      ([Event.awsClientBuild, Event.awsGetCreator],
       Outcome.exited 1 ("Failed to get AWS creator: " ++ e))
    | Except.ok _ =>
    match env.ocmConnBuild with
    | Except.error e =>
      ([Event.awsClientBuild, Event.awsGetCreator, Event.ocmConnectionBuild],
       Outcome.exited 1 ("Failed to create OCM connection: " ++ e))
    | Except.ok _ =>
    match env.getCluster with
    | Except.error e =>
      (userPrefix clusterKey,
       Outcome.exited 1 ("Failed to get cluster '" ++ clusterKey ++ "': " ++ e))
    | Except.ok cluster =>
      if cluster.state ≠ ClusterState.ready then
        (userPrefix clusterKey,
         Outcome.exited 1 ("Cluster '" ++ clusterKey ++ "' is not yet ready"))
      else
        match resolveAdmins env clusterAdminsFlag dedicatedAdminsFlag with
        | Except.error o => (userPrefix clusterKey, o)
        | Except.ok (clusterAdmins, dedicatedAdmins) =>
          if clusterAdmins = "" ∧ dedicatedAdmins = "" then
            (userPrefix clusterKey,
             Outcome.exited 1 "Expected at least one of 'cluster-admins' or 'dedicated-admins'")
          else
            let evs1 := if clusterAdmins ≠ "" then
                addUsersEvents env "cluster-admins" cluster.id (clusterAdmins.splitOn ",")
              else []
            let evs2 := if dedicatedAdmins ≠ "" then
                addUsersEvents env "dedicated-admins" cluster.id (dedicatedAdmins.splitOn ",")
              else []
            (userPrefix clusterKey ++ evs1 ++ evs2, Outcome.ok)

/-! ## The delete-idp command (cmd/delete/idp). -/

/-- An identity provider as fetched from the API. -/
structure IdentityProvider where
  name : String
  id : String
deriving DecidableEq

/-- Results of the remote calls of the delete-idp command; a delete error
carries `res.Error().Reason()`. -/
structure IdpEnv where
  awsClientBuild : Except String Unit
  getCreator : Except String String
  ocmConnBuild : Except String Unit
  getCluster : Except String BasicCluster
  getIdentityProviders : Except String (List IdentityProvider)
  confirm : Bool
  deleteIdp : Except String Unit

/-- The lookup loop of the delete-idp command (the last name match wins). -/
def findIdp (idpName : String) (idps : List IdentityProvider) :
    Option IdentityProvider :=
  idps.foldl (fun acc item => if item.name = idpName then some item else acc) none

/-- Events issued before the delete-idp command looks up the provider. -/
def idpPrefix (clusterKey : String) : List Event :=
  [Event.awsClientBuild, Event.awsGetCreator, Event.ocmConnectionBuild,
   Event.getCluster clusterKey]

/-- cmd/delete/idp `run` (cobra checks `argv` has exactly one element
before `run`; `idpName` is that element). -/
def idpRun (clusterKey idpName : String) (env : IdpEnv) : List Event × Outcome :=
  if IsValidClusterKey clusterKey = false then
    ([], Outcome.exited 1 (clusterKeyInvalidMsg clusterKey))
  else
    match env.awsClientBuild with
    | Except.error e =>
      ([Event.awsClientBuild], Outcome.exited 1 ("Failed to create AWS client: " ++ e))
    | Except.ok _ =>
    match env.getCreator with
    | Except.error e =>
      ([Event.awsClientBuild, Event.awsGetCreator],
       Outcome.exited 1 ("Failed to get AWS creator: " ++ e))
    | Except.ok _ =>
    match env.ocmConnBuild with
    | Except.error e =>
      ([Event.awsClientBuild, Event.awsGetCreator, Event.ocmConnectionBuild],
       Outcome.exited 1 ("Failed to create OCM connection: " ++ e))
    | Except.ok _ =>
    match env.getCluster with
    | Except.error e =>
      (idpPrefix clusterKey,
       Outcome.exited 1 ("Failed to get cluster '" ++ clusterKey ++ "': " ++ e))
    | Except.ok cluster =>
      match env.getIdentityProviders with
      | Except.error e =>
        (idpPrefix clusterKey ++ [Event.getIdentityProviders cluster.id],
         Outcome.exited 1
           ("Failed to get identity providers for cluster '" ++ clusterKey ++ "': " ++ e))
      | Except.ok idps =>
        match findIdp idpName idps with
        | none =>
          (idpPrefix clusterKey ++ [Event.getIdentityProviders cluster.id],
           Outcome.exited 1
             ("Failed to get identity provider '" ++ idpName ++ "' for cluster '" ++
              clusterKey ++ "'"))
        | some idp =>
          if env.confirm then
            match env.deleteIdp with
            | Except.error reason =>
              (idpPrefix clusterKey ++
                [Event.getIdentityProviders cluster.id, Event.deleteIdentityProvider idp.id],
               Outcome.exited 1
                 ("Failed to delete identity provider '" ++ idpName ++ "' on cluster '" ++
                  clusterKey ++ "': " ++ reason))
            | Except.ok _ =>
              (idpPrefix clusterKey ++
                [Event.getIdentityProviders cluster.id, Event.deleteIdentityProvider idp.id],
               Outcome.ok)
          else
            (idpPrefix clusterKey ++ [Event.getIdentityProviders cluster.id], Outcome.ok)

/-! ## The create-cluster command (cmd/create/cluster), staged in source
order.  Every interactive prompt takes the current default and yields the
chosen value; with interactive mode disabled the flag value is used
directly. -/

/-- The create-cluster flags (`private` renamed `priv`; the expiration
duration is `time.Duration` nanoseconds, CIDR blocks their textual form). -/
structure CCArgs where
  watch : Bool
  priv : Bool
  multiAZ : Bool
  expirationDuration : Int
  expirationTime : String
  name : String
  region : String
  version : String
  computeMachineType : String
  computeNodes : Int
  hostPrefix : Int
  machineCIDR : String
  serviceCIDR : String
  podCIDR : String
deriving DecidableEq

/-- Results of the remote calls, prompts and library calls of the
create-cluster command.  `getVersions`, `getMachineTypes` and `getRegions`
yield the fetched IDs; `parse` and `now` are as in `validateExpiration`;
`createCluster` yields the created cluster's ID and name. -/
structure CCEnv where
  ocmConnBuild : Except String Unit
  interactiveEnabled : Bool
  promptName : String → Except String String
  awsGetRegion : String → Except String String
  getRegions : Except String (List String)
  promptRegion : String → Except String String
  getVersions : Except String (List String)
  promptVersion : String → Except String String
  promptMultiAZ : Bool → Except String Bool
  getMachineTypes : Except String (List String)
  promptMachineType : String → Except String String
  promptComputeNodes : Int → Except String Int
  parse : String → Except String Int
  now : Int
  promptMachineCIDR : String → Except String String
  promptServiceCIDR : String → Except String String
  promptPodCIDR : String → Except String String
  promptHostPrefix : Int → Except String Int
  promptPrivate : Bool → Except String Bool
  createCluster : Spec → Except String (String × String)

/-- Final stage: the `CreateCluster` call, then the optional log watch. -/
def ccCreate (a : CCArgs) (env : CCEnv) (spec : Spec) : List Event × Outcome :=
  match env.createCluster spec with
  | Except.error e =>
    ([Event.createCluster spec], Outcome.exited 1 ("Failed to create cluster: " ++ e))
  | Except.ok (clusterID, _clusterName) =>
    if a.watch then ([Event.createCluster spec, Event.watchLogs clusterID], Outcome.ok)
    else ([Event.createCluster spec], Outcome.ok)

/-- CIDR, host-prefix and privacy prompts, then cluster creation. -/
def ccNetwork (a : CCArgs) (env : CCEnv) (name region version : String)
    (multiAZ : Bool) (computeMachineType : String) (computeNodes : Int)
    (expiration : Int) : List Event × Outcome :=
  match (if env.interactiveEnabled then env.promptMachineCIDR a.machineCIDR
         else Except.ok a.machineCIDR) with
  | Except.error e => ([], Outcome.exited 1 ("Expected a valid CIDR value: " ++ e))
  | Except.ok machineCIDR =>
  match (if env.interactiveEnabled then env.promptServiceCIDR a.serviceCIDR
         else Except.ok a.serviceCIDR) with
  | Except.error e => ([], Outcome.exited 1 ("Expected a valid CIDR value: " ++ e))
  | Except.ok serviceCIDR =>
  match (if env.interactiveEnabled then env.promptPodCIDR a.podCIDR
         else Except.ok a.podCIDR) with
  | Except.error e => ([], Outcome.exited 1 ("Expected a valid CIDR value: " ++ e))
  | Except.ok podCIDR =>
  match (if env.interactiveEnabled then env.promptHostPrefix a.hostPrefix
         else Except.ok a.hostPrefix) with
  | Except.error e => ([], Outcome.exited 1 ("Expected a valid host prefix value: " ++ e))
  | Except.ok hostPrefix =>
  match (if env.interactiveEnabled then env.promptPrivate a.priv
         else Except.ok a.priv) with
  | Except.error e => ([], Outcome.exited 1 ("Expected a valid private value: " ++ e))
  | Except.ok priv =>
    ccCreate a env
      { name := name, region := region, multiAZ := multiAZ, version := version,
        expiration := expiration, computeMachineType := computeMachineType,
        computeNodes := computeNodes, machineCIDR := machineCIDR,
        serviceCIDR := serviceCIDR, podCIDR := podCIDR, hostPrefix := hostPrefix,
        priv := priv }

/-- Expiration-flag validation. -/
def ccExpiration (a : CCArgs) (env : CCEnv) (name region version : String)
    (multiAZ : Bool) (computeMachineType : String) (computeNodes : Int) :
    List Event × Outcome :=
  match validateExpiration env.parse env.now a.expirationTime a.expirationDuration with
  | Except.error e => ([], Outcome.exited 1 e)
  | Except.ok expiration =>
    ccNetwork a env name region version multiAZ computeMachineType computeNodes expiration

/-- Compute-node count prompt. -/
def ccComputeNodes (a : CCArgs) (env : CCEnv) (name region version : String)
    (multiAZ : Bool) (computeMachineType : String) : List Event × Outcome :=
  match (if env.interactiveEnabled then env.promptComputeNodes a.computeNodes
         else Except.ok a.computeNodes) with
  | Except.error e =>
    ([], Outcome.exited 1 ("Expected a valid number of compute nodes: " ++ e))
  | Except.ok computeNodes =>
    ccExpiration a env name region version multiAZ computeMachineType computeNodes

/-- Machine-type list fetch, prompt and validation (`getMachineTypeList`
maps each fetched machine type to its ID, which the environment already
supplies). -/
def ccMachineType (a : CCArgs) (env : CCEnv) (name region version : String)
    (multiAZ : Bool) : List Event × Outcome :=
  match env.getMachineTypes with
  | Except.error e =>
    ([Event.getMachineTypes], Outcome.exited 1 ("Failed to retrieve machine types: " ++ e))
  | Except.ok machineTypeList =>
  match (if env.interactiveEnabled then env.promptMachineType a.computeMachineType
         else Except.ok a.computeMachineType) with
  | Except.error e =>
    ([Event.getMachineTypes], Outcome.exited 1 ("Expected a valid machine type: " ++ e))
  | Except.ok chosen =>
  match validateMachineType chosen machineTypeList with
  | Except.error e =>
    ([Event.getMachineTypes], Outcome.exited 1 ("Expected a valid machine type: " ++ e))
  | Except.ok computeMachineType =>
    consEv Event.getMachineTypes
      (ccComputeNodes a env name region version multiAZ computeMachineType)

/-- Multi-AZ prompt. -/
def ccMultiAZ (a : CCArgs) (env : CCEnv) (name region version : String) :
    List Event × Outcome :=
  match (if env.interactiveEnabled then env.promptMultiAZ a.multiAZ
         else Except.ok a.multiAZ) with
  | Except.error e => ([], Outcome.exited 1 ("Expected a valid multi-AZ value: " ++ e))
  | Except.ok multiAZ => ccMachineType a env name region version multiAZ

/-- Version list fetch (IDs run through `getVersionList`), prompt and
validation. -/
def ccVersion (a : CCArgs) (env : CCEnv) (name region : String) :
    List Event × Outcome :=
  match env.getVersions with
  | Except.error e =>
    ([Event.getVersions], Outcome.exited 1 ("Failed to retrieve versions: " ++ e))
  | Except.ok ids =>
  match (if env.interactiveEnabled then env.promptVersion a.version
         else Except.ok a.version) with
  | Except.error e =>
    ([Event.getVersions], Outcome.exited 1 ("Expected a valid OpenShift version: " ++ e))
  | Except.ok chosen =>
  match validateVersion chosen (getVersionList ids) with
  | Except.error e =>
    ([Event.getVersions], Outcome.exited 1 ("Expected a valid OpenShift version: " ++ e))
  | Except.ok version =>
    consEv Event.getVersions (ccMultiAZ a env name region version)

/-- Region resolution (`aws.GetRegion`), region list fetch, prompt and the
non-empty check. -/
def ccRegion (a : CCArgs) (env : CCEnv) (name : String) : List Event × Outcome :=
  match env.awsGetRegion a.region with
  | Except.error e => ([], Outcome.exited 1 ("Error getting region: " ++ e))
  | Except.ok region0 =>
  match env.getRegions with
  | Except.error e =>
    ([Event.getRegions], Outcome.exited 1 ("Failed to retrieve AWS regions: " ++ e))
  | Except.ok _regionList =>
  match (if env.interactiveEnabled then env.promptRegion region0
         else Except.ok region0) with
  | Except.error e =>
    ([Event.getRegions], Outcome.exited 1 ("Expected a valid AWS region: " ++ e))
  | Except.ok region =>
    if region = "" then ([Event.getRegions], Outcome.exited 1 "Expected a valid AWS region")
    else consEv Event.getRegions (ccVersion a env name region)

/-- Cluster-name prompt and `IsValidClusterKey` check. -/
def ccName (a : CCArgs) (env : CCEnv) : List Event × Outcome :=
  match (if env.interactiveEnabled then env.promptName a.name
         else Except.ok a.name) with
  | Except.error e => ([], Outcome.exited 1 ("Expected a valid cluster name: " ++ e))
  | Except.ok name =>
    if IsValidClusterKey name = false then
      ([], Outcome.exited 1 "Expected a valid cluster name")
    else ccRegion a env name

/-- cmd/create/cluster `run`: the OCM connection is built first (it
refreshes tokens remotely), then the staged flow above. -/
def createClusterRun (a : CCArgs) (env : CCEnv) : List Event × Outcome :=
  match env.ocmConnBuild with
  | Except.error e =>
    ([Event.ocmConnectionBuild], Outcome.exited 1 ("Failed to create OCM connection: " ++ e))
  | Except.ok _ => consEv Event.ocmConnectionBuild (ccName a env)

/-! ## Concrete sample inputs, used to evaluate the theorems on closed
instances. -/

/-- A sample RFC3339 parser standing in for the Go time package. -/
def demoParse : String → Except String Int := fun s =>
  if s = "2020-01-02T03:04:05Z" then Except.ok 1577934245000000000
  else Except.error "parsing time as RFC3339"

/-- A sample fetched cluster used by the describe command instances. -/
def demoDescCluster : DescCluster :=
  { id := "1a2b3c", name := "mycluster", displayName := "", externalID := "ext-42",
    creatorARNProp := "arn-string", state := ClusterState.ready,
    statusState := ClusterState.ready, statusDNSReady := true,
    provisionErrorMessage := "", provisionErrorCode := "",
    dnsBaseDomain := "example.com", apiURL := "https://api.mycluster.example.com",
    consoleURL := "https://console.mycluster.example.com", regionID := "us-east-1",
    channelGroup := "stable", creationTimestampStr := "Jan  1 2020 00:00:00 UTC",
    nodesMaster := 3, nodesInfra := 2, nodesCompute := 4, autoscaleCompute := none }

/-- A describe-command environment where every call succeeds. -/
def demoDescribeEnv : DescribeEnv :=
  { awsClientBuild := Except.ok (), getCreator := Except.ok "arn-string",
    ocmConnBuild := Except.ok (), connURL := "https://api.stage.openshift.com",
    getCluster := Except.ok demoDescCluster,
    arnParseAccountID := fun _ => Except.ok "000000000000",
    getIngresses := Except.ok [], getScheduledUpgrade := Except.ok none }

/-- A cluster that is still installing. -/
def demoClusterInstalling : BasicCluster :=
  { id := "1a2b3c", state := ClusterState.installing }

/-- A cluster in the ready state. -/
def demoClusterReady : BasicCluster :=
  { id := "1a2b3c", state := ClusterState.ready }

/-- An addon-command environment whose cluster is not yet ready. -/
def demoAddonEnvNotReady : AddonEnv :=
  { awsClientBuild := Except.ok (), getCreator := Except.ok "arn-string",
    ocmConnBuild := Except.ok (), getCluster := Except.ok demoClusterInstalling,
    confirm := true, getAddOnParameters := Except.ok [],
    promptBool := fun _ => Except.ok false, promptIPNet := fun _ => Except.ok "",
    promptInt := fun _ => Except.ok 0, promptString := fun _ => Except.ok "",
    regexMatch := fun _ _ => Except.ok true, installAddOn := Except.ok () }

/-- A create-user environment whose cluster is not yet ready. -/
def demoUserEnvNotReady : UserEnv :=
  { awsClientBuild := Except.ok (), getCreator := Except.ok "arn-string",
    ocmConnBuild := Except.ok (), getCluster := Except.ok demoClusterInstalling,
    promptClusterAdmins := Except.ok "", promptDedicatedAdmins := Except.ok "",
    userBuild := fun _ => Except.ok (), addUser := fun _ _ => Except.ok () }

/-- A create-user environment with a ready cluster in which building the
user "bob" fails and the add request for "carol" fails. -/
def demoUserEnvPartial : UserEnv :=
  { awsClientBuild := Except.ok (), getCreator := Except.ok "arn-string",
    ocmConnBuild := Except.ok (), getCluster := Except.ok demoClusterReady,
    promptClusterAdmins := Except.ok "", promptDedicatedAdmins := Except.ok "",
    userBuild := fun u => if u = "bob" then Except.error "bad id" else Except.ok (),
    addUser := fun _ u => if u = "carol" then Except.error "server error" else Except.ok () }

/-- A create-cluster environment where every remote call and prompt
succeeds and interactive mode is off. -/
def ccEnvDemo : CCEnv :=
  { ocmConnBuild := Except.ok (), interactiveEnabled := false,
    promptName := fun d => Except.ok d,
    awsGetRegion := fun r => Except.ok (if r = "" then "us-east-1" else r),
    getRegions := Except.ok ["us-east-1", "us-east-2"],
    promptRegion := fun d => Except.ok d,
    getVersions := Except.ok ["openshift-v4.3.0", "openshift-v4.3.10"],
    promptVersion := fun d => Except.ok d,
    promptMultiAZ := fun d => Except.ok d,
    getMachineTypes := Except.ok ["m5.xlarge"],
    promptMachineType := fun d => Except.ok d,
    promptComputeNodes := fun d => Except.ok d,
    parse := demoParse, now := 1600000000000000000,
    promptMachineCIDR := fun d => Except.ok d,
    promptServiceCIDR := fun d => Except.ok d,
    promptPodCIDR := fun d => Except.ok d,
    promptHostPrefix := fun d => Except.ok d,
    promptPrivate := fun d => Except.ok d,
    createCluster := fun _ => Except.ok ("1a2b3c", "mycluster") }

/-- create-cluster flags with an invalid name (space and exclamation mark). -/
def ccArgsDemoBad : CCArgs :=
  { watch := false, priv := false, multiAZ := false, expirationDuration := 0,
    expirationTime := "", name := "my cluster!", region := "", version := "",
    computeMachineType := "", computeNodes := 4, hostPrefix := 0,
    machineCIDR := "", serviceCIDR := "", podCIDR := "" }

/-- create-cluster flags with a valid name and everything else defaulted. -/
def ccArgsDemoGood : CCArgs :=
  { watch := false, priv := false, multiAZ := false, expirationDuration := 0,
    expirationTime := "", name := "mycluster", region := "", version := "",
    computeMachineType := "", computeNodes := 4, hostPrefix := 0,
    machineCIDR := "", serviceCIDR := "", podCIDR := "" }

/-- The cluster configuration `ccArgsDemoGood` leads to. -/
def ccSpecDemo : Spec :=
  { name := "mycluster", region := "us-east-1", multiAZ := false, version := "",
    expiration := 0, computeMachineType := "", computeNodes := 4,
    machineCIDR := "", serviceCIDR := "", podCIDR := "", hostPrefix := 0,
    priv := false }

/-- A configuration with every connection property present. -/
def demoConfig : Config :=
  { tokenURL := "https://sso.redhat.com/token", clientID := "cloud-services",
    clientSecret := "", scopes := some ["openid"], url := "https://api.openshift.com",
    accessToken := "head.payload.sig", refreshToken := "refresh.payload.sig",
    insecure := false }

/-- A build environment where every effect succeeds and no configuration
is cached. -/
def demoBuildEnvNoLogin : BuildEnv :=
  { load := Except.ok none, ocmLoggerBuild := Except.ok (),
    sdkBuild := fun _ => Except.ok (), fetchTokens := fun _ => Except.ok () }

/-- A build environment where every effect succeeds. -/
def demoBuildEnvOk : BuildEnv :=
  { load := Except.ok (some demoConfig), ocmLoggerBuild := Except.ok (),
    sdkBuild := fun _ => Except.ok (), fetchTokens := fun _ => Except.ok () }

/-- A build environment where the token refresh fails. -/
def demoBuildEnvBadToken : BuildEnv :=
  { load := Except.ok (some demoConfig), ocmLoggerBuild := Except.ok (),
    sdkBuild := fun _ => Except.ok (),
    fetchTokens := fun _ => Except.error "invalid grant" }

/-! ## Helper lemmas. -/

theorem string_length_pos_iff (s : String) : 0 < s.length ↔ s ≠ "" := by
  have h : s.length = s.data.length := rfl
  rw [h, List.length_pos]
  constructor
  · intro hne he
    exact hne (by rw [he])
  · intro hne hd
    exact hne (String.ext hd)

theorem any_beq_iff_mem (v : String) (l : List String) :
    l.any (fun x => x == v) = true ↔ v ∈ l := by
  simp [List.any_eq_true]

theorem validateVersion_mem (v : String) (l : List String) (hv : v ≠ "")
    (hm : v ∈ l) : validateVersion v l = Except.ok ("openshift-v" ++ v) := by
  simp [validateVersion, hv, (any_beq_iff_mem v l).mpr hm]

theorem validateVersion_not_mem (v : String) (l : List String) (hv : v ≠ "")
    (hm : v ∉ l) :
    validateVersion v l =
      Except.error ("A valid version number must be specified\nValid versions: " ++
        joinSpace l) := by
  have ha : l.any (fun x => x == v) = false := by
    rw [← Bool.not_eq_true, any_beq_iff_mem]
    exact hm
  simp [validateVersion, hv, ha]

theorem validateMachineType_mem (v : String) (l : List String) (hm : v ∈ l) :
    validateMachineType v l = Except.ok v := by
  by_cases hv : v = ""
  · simp [validateMachineType, hv]
  · simp [validateMachineType, hv, (any_beq_iff_mem v l).mpr hm]

theorem validateMachineType_not_mem (v : String) (l : List String) (hv : v ≠ "")
    (hm : v ∉ l) :
    validateMachineType v l =
      Except.error ("A valid machine type number must be specified\nValid machine types: " ++
        joinSpace l) := by
  have ha : l.any (fun x => x == v) = false := by
    rw [← Bool.not_eq_true, any_beq_iff_mem]
    exact hm
  simp [validateMachineType, hv, ha]

/-! ## C2. -/

/-- C2: `validateExpiration` errors when both a non-empty expiration time
and a non-zero expiration duration are supplied; with only the time it
returns the parsed time or a parse error; with only the duration it
returns now plus the duration rounded to the nearest second; and it errors
only in the both-supplied or parse-failure cases. -/
theorem C2_expiration_flags_mutually_exclusive :
    ∀ (parse : String → Except String Int) (now : Int) (et : String) (ed : Int),
      (et ≠ "" → ed ≠ 0 →
        validateExpiration parse now et ed =
          Except.error "At most one of 'expiration-time' or 'expiration' may be specified") ∧
      (et ≠ "" → ed = 0 →
        validateExpiration parse now et ed =
          (match parse et with
           | Except.ok t => Except.ok t
           | Except.error e => Except.error ("Failed to parse expiration-time: " ++ e))) ∧
      (et = "" → ed ≠ 0 →
        validateExpiration parse now et ed = Except.ok (roundToSecond (now + ed))) ∧
      (∀ msg, validateExpiration parse now et ed = Except.error msg →
        (et ≠ "" ∧ ed ≠ 0) ∨ ∃ e, parse et = Except.error e) := by
  intro parse now et ed
  refine ⟨?_, ?_, ?_, ?_⟩
  · intro h1 h2
    simp [validateExpiration, (string_length_pos_iff et).mpr h1, h2]
  · intro h1 h2
    simp only [validateExpiration, (string_length_pos_iff et).mpr h1, h2]
    simp
    cases parse et <;> simp
  · intro h1 h2
    simp [validateExpiration, h1, h2, String.length]
  · intro msg h
    by_cases h1 : 0 < et.length
    · by_cases h2 : ed = 0
      · simp only [validateExpiration, h1, h2] at h
        simp at h
        cases hp : parse et with
        | ok t => rw [hp] at h; simp at h
        | error e => exact Or.inr ⟨e, rfl⟩
      · exact Or.inl ⟨(string_length_pos_iff et).mp h1, h2⟩
    · by_cases h2 : ed = 0
      · simp [validateExpiration, h1, h2] at h
      · simp [validateExpiration, h1, h2] at h

/-- C2 instance: both flags supplied on a concrete input. -/
theorem C2_witness :
    validateExpiration demoParse 0 "2020-01-02T03:04:05Z" 3600000000000 =
      Except.error "At most one of 'expiration-time' or 'expiration' may be specified" :=
  (C2_expiration_flags_mutually_exclusive demoParse 0 "2020-01-02T03:04:05Z"
    3600000000000).1 (by decide) (by decide)

/-! ## C3. -/

/-- C3 counterexample: the empty string is absent from the fetched
allow-list yet both validators accept it, so the universally quantified
first clause of the claim fails at the empty value. -/
theorem C3_counterexample :
    validateVersion "" ["4.3.10"] = Except.ok "" ∧
    (["4.3.10"].any (fun x => x == "")) = false ∧
    validateMachineType "" ["m5.xlarge"] = Except.ok "" := by
  refine ⟨rfl, by decide, rfl⟩

/-- C3 (amended to non-empty values): a non-empty version or machine type
absent from the fetched list is rejected with a message listing the valid
values, and the create-cluster run then exits with status 1. -/
theorem C3_allowlist_validation :
    (∀ v l, v ≠ "" → v ∉ l →
      validateVersion v l =
        Except.error ("A valid version number must be specified\nValid versions: " ++
          joinSpace l)) ∧
    (∀ v l, v ≠ "" → v ∉ l →
      validateMachineType v l =
        Except.error ("A valid machine type number must be specified\nValid machine types: " ++
          joinSpace l)) ∧
    (∀ (a : CCArgs) (env : CCEnv) (r : String) (rl ids : List String),
      env.ocmConnBuild = Except.ok () → env.interactiveEnabled = false →
      IsValidClusterKey a.name = true →
      env.awsGetRegion a.region = Except.ok r → r ≠ "" →
      env.getRegions = Except.ok rl → env.getVersions = Except.ok ids →
      a.version ≠ "" → a.version ∉ getVersionList ids →
      createClusterRun a env =
        ([Event.ocmConnectionBuild, Event.getRegions, Event.getVersions],
         Outcome.exited 1
           ("Expected a valid OpenShift version: " ++
            ("A valid version number must be specified\nValid versions: " ++
             joinSpace (getVersionList ids))))) ∧
    (∀ (a : CCArgs) (env : CCEnv) (r : String) (rl ids mts : List String),
      env.ocmConnBuild = Except.ok () → env.interactiveEnabled = false →
      IsValidClusterKey a.name = true →
      env.awsGetRegion a.region = Except.ok r → r ≠ "" →
      env.getRegions = Except.ok rl → env.getVersions = Except.ok ids →
      a.version = "" →
      env.getMachineTypes = Except.ok mts →
      a.computeMachineType ≠ "" → a.computeMachineType ∉ mts →
      createClusterRun a env =
        ([Event.ocmConnectionBuild, Event.getRegions, Event.getVersions,
          Event.getMachineTypes],
         Outcome.exited 1
           ("Expected a valid machine type: " ++
            ("A valid machine type number must be specified\nValid machine types: " ++
             joinSpace mts)))) := by
  refine ⟨fun v l hv hm => validateVersion_not_mem v l hv hm,
          fun v l hv hm => validateMachineType_not_mem v l hv hm, ?_, ?_⟩
  · intro a env r rl ids hconn hint hname hreg hrne hregs hvers hvne hvnm
    simp [createClusterRun, hconn, consEv, ccName, hint, hname, ccRegion, hreg,
      hregs, hrne, ccVersion, hvers,
      validateVersion_not_mem a.version (getVersionList ids) hvne hvnm]
  · intro a env r rl ids mts hconn hint hname hreg hrne hregs hvers hv hmts hmne hmnm
    simp [createClusterRun, hconn, consEv, ccName, hint, hname, ccRegion, hreg,
      hregs, hrne, ccVersion, hvers, hv, validateVersion, ccMultiAZ, ccMachineType,
      hmts, validateMachineType_not_mem a.computeMachineType mts hmne hmnm]

/-- C3 instance: a concrete unknown version is rejected and the run exits
with status 1. -/
theorem C3_witness :
    createClusterRun
      { ccArgsDemoGood with version := "4.9.9" } ccEnvDemo =
      ([Event.ocmConnectionBuild, Event.getRegions, Event.getVersions],
       Outcome.exited 1
         ("Expected a valid OpenShift version: " ++
          ("A valid version number must be specified\nValid versions: " ++
           joinSpace (getVersionList ["openshift-v4.3.0", "openshift-v4.3.10"])))) :=
  (C3_allowlist_validation.2.2.1 { ccArgsDemoGood with version := "4.9.9" } ccEnvDemo
    "us-east-1" ["us-east-1", "us-east-2"] ["openshift-v4.3.0", "openshift-v4.3.10"]
    rfl rfl (by decide) rfl (by decide) rfl rfl (by decide) (by decide))

/-! ## C8. -/

theorem replaceFirst_prefix (pat s : List Char) (h : pat.isPrefixOf s = true) :
    replaceFirst pat [] s = s.drop pat.length := by
  cases s with
  | nil =>
    have hp : pat = [] := by
      cases pat with
      | nil => rfl
      | cons a l => simp [List.isPrefixOf] at h
    subst hp
    simp [replaceFirst]
  | cons c rest => simp [replaceFirst, h]

/-- C8 counterexample: `getVersionList` replaces the first occurrence of
"openshift-v" anywhere in the ID, so on an ID that does not start with the
prefix it differs from stripping the prefix. -/
theorem C8_counterexample :
    getVersionList ["xopenshift-v4.3.0"] = ["x4.3.0"] ∧
    stripOpenshiftPrefixSpec "xopenshift-v4.3.0" = "xopenshift-v4.3.0" ∧
    getVersionList ["xopenshift-v4.3.0"] ≠
      [stripOpenshiftPrefixSpec "xopenshift-v4.3.0"] := by
  refine ⟨by decide, by decide, by decide⟩

/-- C8 (amended): on IDs that do start with "openshift-v" the list builder
agrees with prefix stripping, and the round trip holds: every non-empty
member of the built list is accepted by `validateVersion`, which returns it
with exactly the prefix restored, and the empty version is returned
unchanged. -/
theorem C8_version_roundtrip :
    (∀ id : String, "openshift-v".data.isPrefixOf id.data = true →
      String.mk (replaceFirst "openshift-v".data [] id.data) =
        stripOpenshiftPrefixSpec id) ∧
    (∀ ids v, v ∈ getVersionList ids → v ≠ "" →
      validateVersion v (getVersionList ids) = Except.ok ("openshift-v" ++ v)) ∧
    (∀ ids, validateVersion "" (getVersionList ids) = Except.ok "") := by
  refine ⟨?_, ?_, ?_⟩
  · intro id h
    simp [stripOpenshiftPrefixSpec, h, replaceFirst_prefix _ _ h]
    rfl
  · intro ids v hm hv
    exact validateVersion_mem v _ hv hm
  · intro ids
    simp [validateVersion]

/-- C8 instance: a concrete prefixed list round-trips. -/
theorem C8_witness :
    validateVersion "4.3.0" (getVersionList ["openshift-v4.3.0", "openshift-v4.3.10"]) =
      Except.ok ("openshift-v" ++ "4.3.0") :=
  C8_version_roundtrip.2.1 ["openshift-v4.3.0", "openshift-v4.3.10"] "4.3.0"
    (by decide) (by decide)

/-! ## C10. -/

theorem isInfix_details (pre post : List Char) :
    "Details Page".data <:+: pre ++ ("Details Page:               ".data ++ post) := by
  have h1 : "Details Page".data ++ ":               ".data =
      "Details Page:               ".data := by decide
  refine ⟨pre, ":               ".data ++ post, ?_⟩
  calc (pre ++ "Details Page".data) ++ (":               ".data ++ post)
      = pre ++ (("Details Page".data ++ ":               ".data) ++ post) := by
        simp [List.append_assoc]
    _ = pre ++ ("Details Page:               ".data ++ post) := by rw [h1]

theorem detailsPage_isInfix (c : DescCluster) (accountID isPrivate dp : String)
    (upgrade : Option Upgrade) (h : dp ≠ "") :
    "Details Page".data <:+:
      (describeOutput c accountID isPrivate dp upgrade).data := by
  unfold describeOutput
  cases upgrade with
  | none =>
    by_cases hs : c.statusState = ClusterState.error <;>
      simp [h, hs, String.data_append, List.append_assoc] <;>
      exact isInfix_details _ _
  | some u =>
    by_cases hs : c.statusState = ClusterState.error <;>
      simp [h, hs, String.data_append, List.append_assoc] <;>
      exact isInfix_details _ _

/-- C10: `getDetailsLink` maps the stage environment to the stage details
URL, the production environment to the production details URL and
everything else to the empty string; and, provided the rest of the
description does not spuriously contain it, the printed description has a
"Details Page" line exactly when the connection URL is one of those two
environments. -/
theorem C10_details_page :
    getDetailsLink StageEnv = StageURL ∧
    getDetailsLink ProductionEnv = ProductionURL ∧
    (∀ url, url ≠ StageEnv → url ≠ ProductionEnv → getDetailsLink url = "") ∧
    (∀ (c : DescCluster) (accountID isPrivate : String) (upgrade : Option Upgrade)
       (url : String),
      ¬ ("Details Page".data <:+:
          (describeOutput c accountID isPrivate "" upgrade).data) →
      (("Details Page".data <:+:
          (describeOutput c accountID isPrivate (getDetailsLink url) upgrade).data) ↔
        (url = StageEnv ∨ url = ProductionEnv))) := by
  have h3 : ∀ url, url ≠ StageEnv → url ≠ ProductionEnv → getDetailsLink url = "" := by
    intro url h1 h2
    simp [getDetailsLink, h1, h2]
  refine ⟨by decide, by decide, h3, ?_⟩
  intro c accountID isPrivate upgrade url hno
  constructor
  · intro hinf
    by_cases h1 : url = StageEnv
    · exact Or.inl h1
    by_cases h2 : url = ProductionEnv
    · exact Or.inr h2
    rw [h3 url h1 h2] at hinf
    exact absurd hinf hno
  · intro hor
    cases hor with
    | inl h => subst h; exact detailsPage_isInfix c accountID isPrivate StageURL upgrade (by decide)
    | inr h => subst h; exact detailsPage_isInfix c accountID isPrivate ProductionURL upgrade (by decide)

set_option maxRecDepth 100000 in
/-- C10 instance: on the stage connection URL the demo description carries
the "Details Page" line. -/
theorem C10_witness :
    ("Details Page".data <:+:
      (describeOutput demoDescCluster "000000000000" "No"
        (getDetailsLink "https://api.stage.openshift.com") none).data) ↔
    ("https://api.stage.openshift.com" = StageEnv ∨
     "https://api.stage.openshift.com" = ProductionEnv) :=
  C10_details_page.2.2.2 demoDescCluster "000000000000" "No" none
    "https://api.stage.openshift.com" (by decide)

/-! ## C7. -/

set_option maxHeartbeats 1000000 in
theorem buildConnProps_eq (cfg : Config) :
    buildConnProps cfg =
      { tokenURL := if cfg.tokenURL = "" then none else some cfg.tokenURL,
        client := if cfg.clientID = "" ∧ cfg.clientSecret = "" then none
          else some (cfg.clientID, cfg.clientSecret),
        scopes := cfg.scopes,
        url := if cfg.url = "" then none else some cfg.url,
        tokens := if cfg.accessToken = "" ∧ cfg.refreshToken = "" then none
          else some ((if cfg.accessToken = "" then [] else [cfg.accessToken]) ++
                     (if cfg.refreshToken = "" then [] else [cfg.refreshToken])),
        insecure := cfg.insecure } := by
  by_cases h1 : cfg.tokenURL = "" <;> by_cases h2 : cfg.clientID = "" <;>
    by_cases h3 : cfg.clientSecret = "" <;> cases h4 : cfg.scopes <;>
    by_cases h5 : cfg.url = "" <;> by_cases h6 : cfg.accessToken = "" <;>
    by_cases h7 : cfg.refreshToken = "" <;>
    simp [buildConnProps, h1, h2, h3, h4, h5, h6, h7]

/-- C7: `Build` loads the cached configuration when none was supplied
explicitly and fails with the not-logged-in error when there is none; it
sets on the connection exactly the properties with present/non-empty
configuration values; and after constructing the connection it refreshes
the tokens, failing without a client when no token can be obtained. -/
theorem C7_connection_build :
    (∀ (env : BuildEnv) (lg : Bool), env.load = Except.ok none →
      ClientBuilder.Build { logger := lg, cfg := none } env =
        Except.error "Not logged in, run the 'rosa login' command") ∧
    (∀ (env : BuildEnv) (lg : Bool) (cfg : Config),
      env.load = Except.ok (some cfg) →
      ClientBuilder.Build { logger := lg, cfg := none } env =
        ClientBuilder.Build { logger := lg, cfg := some cfg } env) ∧
    (∀ cfg : Config,
      (buildConnProps cfg).tokenURL =
        (if cfg.tokenURL = "" then none else some cfg.tokenURL) ∧
      (buildConnProps cfg).client =
        (if cfg.clientID = "" ∧ cfg.clientSecret = "" then none
         else some (cfg.clientID, cfg.clientSecret)) ∧
      (buildConnProps cfg).scopes = cfg.scopes ∧
      (buildConnProps cfg).url = (if cfg.url = "" then none else some cfg.url) ∧
      (buildConnProps cfg).tokens =
        (if cfg.accessToken = "" ∧ cfg.refreshToken = "" then none
         else some ((if cfg.accessToken = "" then [] else [cfg.accessToken]) ++
                    (if cfg.refreshToken = "" then [] else [cfg.refreshToken]))) ∧
      (buildConnProps cfg).insecure = cfg.insecure) ∧
    (∀ (env : BuildEnv) (cfg : Config) (e : String),
      env.ocmLoggerBuild = Except.ok () →
      env.sdkBuild (buildConnProps cfg) = Except.ok () →
      env.fetchTokens (buildConnProps cfg) = Except.error e →
      ClientBuilder.Build { logger := true, cfg := some cfg } env =
        Except.error "Error creating connection. Not able to get authentication token") ∧
    (∀ (env : BuildEnv) (cfg : Config),
      env.ocmLoggerBuild = Except.ok () →
      env.sdkBuild (buildConnProps cfg) = Except.ok () →
      env.fetchTokens (buildConnProps cfg) = Except.ok () →
      ClientBuilder.Build { logger := true, cfg := some cfg } env =
        Except.ok { conn := buildConnProps cfg }) := by
  refine ⟨?_, ?_, ?_, ?_, ?_⟩
  · intro env lg h
    simp [ClientBuilder.Build, h]
  · intro env lg cfg h
    simp [ClientBuilder.Build, h]
  · intro cfg
    simp [buildConnProps_eq]
  · intro env cfg e h1 h2 h3
    simp [ClientBuilder.Build, h1, h2, h3]
  · intro env cfg h1 h2 h3
    simp [ClientBuilder.Build, h1, h2, h3]

/-- C7 instance: the three concrete build environments exercise the
not-logged-in error, the token-refresh failure and the successful build. -/
theorem C7_witness :
    ClientBuilder.Build { logger := true, cfg := none } demoBuildEnvNoLogin =
      Except.error "Not logged in, run the 'rosa login' command" ∧
    ClientBuilder.Build { logger := true, cfg := some demoConfig } demoBuildEnvBadToken =
      Except.error "Error creating connection. Not able to get authentication token" ∧
    ClientBuilder.Build { logger := true, cfg := some demoConfig } demoBuildEnvOk =
      Except.ok { conn := buildConnProps demoConfig } :=
  ⟨C7_connection_build.1 demoBuildEnvNoLogin true rfl,
   C7_connection_build.2.2.2.1 demoBuildEnvBadToken demoConfig "invalid grant" rfl rfl rfl,
   C7_connection_build.2.2.2.2 demoBuildEnvOk demoConfig rfl rfl rfl⟩

/-! ## C1. -/

/-- C1 counterexample: with an invalid cluster name, the create-cluster
run has already issued the OCM connection build, a remote operation (it
fetches authentication tokens), before the cluster-key validation rejects,
and its message is not the character-class message of the other
commands. -/
theorem C1_counterexample :
    IsValidClusterKey "my cluster!" = false ∧
    (createClusterRun ccArgsDemoBad ccEnvDemo).1 = [Event.ocmConnectionBuild] ∧
    isRemote Event.ocmConnectionBuild = true ∧
    (createClusterRun ccArgsDemoBad ccEnvDemo).2 =
      Outcome.exited 1 "Expected a valid cluster name" ∧
    Outcome.exited 1 "Expected a valid cluster name" ≠
      Outcome.exited 1 (clusterKeyInvalidMsg "my cluster!") := by
  refine ⟨by decide, by decide, by decide, by decide, by decide⟩

/-- C1 (amended): the syntax validation accepts a key exactly when it
consists only of letters, digits, dashes and underscores; on any other key
the describe-cluster (flag or positional argument), install-addon,
create-user and delete-idp commands exit with status 1 and the
character-class message before issuing any operation at all, while
create-cluster exits with status 1 and "Expected a valid cluster name"
after the initial OCM connection build but before any other remote
operation. -/
theorem C1_cluster_key_validation :
    (∀ key : String, IsValidClusterKey key = true ↔
      ∀ c ∈ key.data, c.isAlpha = true ∨ c.isDigit = true ∨ c = '-' ∨ c = '_') ∧
    (∀ (k : String) (argv : List String) (env : DescribeEnv), k ≠ "" →
      IsValidClusterKey k = false →
      describeRun k argv env = ([], Outcome.exited 1 (clusterKeyInvalidMsg k), "")) ∧
    (∀ (a : String) (env : DescribeEnv), IsValidClusterKey a = false →
      describeRun "" [a] env = ([], Outcome.exited 1 (clusterKeyInvalidMsg a), "")) ∧
    (∀ (k aid : String) (env : AddonEnv), aid ≠ "" → IsValidClusterKey k = false →
      addonRun k [aid] env = ([], Outcome.exited 1 (clusterKeyInvalidMsg k))) ∧
    (∀ (k ca da : String) (env : UserEnv), IsValidClusterKey k = false →
      userRun k ca da env = ([], Outcome.exited 1 (clusterKeyInvalidMsg k))) ∧
    (∀ (k n : String) (env : IdpEnv), IsValidClusterKey k = false →
      idpRun k n env = ([], Outcome.exited 1 (clusterKeyInvalidMsg k))) ∧
    (∀ (a : CCArgs) (env : CCEnv), env.interactiveEnabled = false →
      env.ocmConnBuild = Except.ok () → IsValidClusterKey a.name = false →
      createClusterRun a env =
        ([Event.ocmConnectionBuild], Outcome.exited 1 "Expected a valid cluster name")) := by
  refine ⟨?_, ?_, ?_, ?_, ?_, ?_, ?_⟩
  · intro key
    simp only [IsValidClusterKey, List.all_eq_true, isClusterKeyChar,
      Bool.or_eq_true, beq_iff_eq]
    constructor <;> intro h c hc <;> have := h c hc <;> tauto
  · intro k argv env hk0 hk
    simp [describeRun, hk0, hk]
  · intro a env ha
    simp [describeRun, ha]
  · intro k aid env haid hk
    simp [addonRun, haid, hk]
  · intro k ca da env hk
    simp [userRun, hk]
  · intro k n env hk
    simp [idpRun, hk]
  · intro a env hint hconn hk
    simp [createClusterRun, hconn, consEv, ccName, hint, hk]

/-- C1 instance: a concrete invalid key is rejected by the describe
command with the character-class message and no operation issued. -/
theorem C1_witness :
    describeRun "bad key!" [] demoDescribeEnv =
      ([], Outcome.exited 1 (clusterKeyInvalidMsg "bad key!"), "") :=
  C1_cluster_key_validation.2.1 "bad key!" [] demoDescribeEnv (by decide) (by decide)

/-! ## C4: stage lemmas tracking what must have held when the
`createCluster` event is in the trace. -/

theorem validateMachineType_ok_eq (v w : String) (l : List String)
    (h : validateMachineType v l = Except.ok w) : w = v := by
  by_cases hv : v = ""
  · subst hv
    simp [validateMachineType] at h
    exact h.symm
  · by_cases ha : l.any (fun x => x == v) = true
    · simp [validateMachineType, hv, ha] at h
      exact h.symm
    · simp [validateMachineType, hv, ha] at h

theorem ccCreate_mem (a : CCArgs) (env : CCEnv) (spec s : Spec)
    (h : Event.createCluster s ∈ (ccCreate a env spec).1) : s = spec := by
  unfold ccCreate at h
  repeat' split at h
  all_goals simp_all

theorem ccNetwork_mem (a : CCArgs) (env : CCEnv) (name region version : String)
    (multiAZ : Bool) (cmt : String) (cn exp : Int) (s : Spec)
    (h : Event.createCluster s ∈
      (ccNetwork a env name region version multiAZ cmt cn exp).1) :
    s.name = name ∧ s.region = region ∧ s.version = version ∧
      s.computeMachineType = cmt := by
  unfold ccNetwork at h
  repeat' split at h
  all_goals try (exact absurd h (by simp))
  obtain rfl := ccCreate_mem _ _ _ _ h
  exact ⟨rfl, rfl, rfl, rfl⟩

theorem ccExpiration_mem (a : CCArgs) (env : CCEnv) (name region version : String)
    (multiAZ : Bool) (cmt : String) (cn : Int) (s : Spec)
    (h : Event.createCluster s ∈
      (ccExpiration a env name region version multiAZ cmt cn).1) :
    (∃ exp, validateExpiration env.parse env.now a.expirationTime a.expirationDuration =
      Except.ok exp) ∧
    s.name = name ∧ s.region = region ∧ s.version = version ∧
      s.computeMachineType = cmt := by
  unfold ccExpiration at h
  split at h
  · exact absurd h (by simp)
  rename_i exp hve
  exact ⟨⟨exp, hve⟩, ccNetwork_mem _ _ _ _ _ _ _ _ _ _ h⟩

theorem ccComputeNodes_mem (a : CCArgs) (env : CCEnv) (name region version : String)
    (multiAZ : Bool) (cmt : String) (s : Spec)
    (h : Event.createCluster s ∈
      (ccComputeNodes a env name region version multiAZ cmt).1) :
    (∃ exp, validateExpiration env.parse env.now a.expirationTime a.expirationDuration =
      Except.ok exp) ∧
    s.name = name ∧ s.region = region ∧ s.version = version ∧
      s.computeMachineType = cmt := by
  unfold ccComputeNodes at h
  repeat' split at h
  all_goals try (exact absurd h (by simp))
  exact ccExpiration_mem _ _ _ _ _ _ _ _ _ h

theorem ccMachineType_mem (a : CCArgs) (env : CCEnv) (name region version : String)
    (multiAZ : Bool) (s : Spec)
    (h : Event.createCluster s ∈ (ccMachineType a env name region version multiAZ).1) :
    (∃ mts, env.getMachineTypes = Except.ok mts ∧
      validateMachineType s.computeMachineType mts = Except.ok s.computeMachineType) ∧
    (∃ exp, validateExpiration env.parse env.now a.expirationTime a.expirationDuration =
      Except.ok exp) ∧
    s.name = name ∧ s.region = region ∧ s.version = version := by
  unfold ccMachineType at h
  split at h
  · exact absurd h (by simp)
  rename_i mts hmts
  split at h
  · exact absurd h (by simp)
  rename_i chosen hch
  split at h
  · exact absurd h (by simp)
  rename_i cmt hvm
  simp only [consEv, List.mem_cons] at h
  rcases h with h | h
  · exact absurd h (by simp)
  obtain ⟨hexp, hn, hr, hv, hc⟩ := ccComputeNodes_mem _ _ _ _ _ _ _ _ h
  obtain rfl := validateMachineType_ok_eq chosen cmt mts hvm
  rw [hc]
  exact ⟨⟨mts, hmts, hvm⟩, hexp, hn, hr, hv⟩

theorem ccMultiAZ_mem (a : CCArgs) (env : CCEnv) (name region version : String)
    (s : Spec)
    (h : Event.createCluster s ∈ (ccMultiAZ a env name region version).1) :
    (∃ mts, env.getMachineTypes = Except.ok mts ∧
      validateMachineType s.computeMachineType mts = Except.ok s.computeMachineType) ∧
    (∃ exp, validateExpiration env.parse env.now a.expirationTime a.expirationDuration =
      Except.ok exp) ∧
    s.name = name ∧ s.region = region ∧ s.version = version := by
  unfold ccMultiAZ at h
  repeat' split at h
  all_goals try (exact absurd h (by simp))
  exact ccMachineType_mem _ _ _ _ _ _ _ h

theorem ccVersion_mem (a : CCArgs) (env : CCEnv) (name region : String) (s : Spec)
    (h : Event.createCluster s ∈ (ccVersion a env name region).1) :
    (∃ ids, env.getVersions = Except.ok ids ∧
      ∃ v, validateVersion v (getVersionList ids) = Except.ok s.version) ∧
    (∃ mts, env.getMachineTypes = Except.ok mts ∧
      validateMachineType s.computeMachineType mts = Except.ok s.computeMachineType) ∧
    (∃ exp, validateExpiration env.parse env.now a.expirationTime a.expirationDuration =
      Except.ok exp) ∧
    s.name = name ∧ s.region = region := by
  unfold ccVersion at h
  split at h
  · exact absurd h (by simp)
  rename_i ids hids
  split at h
  · exact absurd h (by simp)
  rename_i chosen hch
  split at h
  · exact absurd h (by simp)
  rename_i version hvv
  simp only [consEv, List.mem_cons] at h
  rcases h with h | h
  · exact absurd h (by simp)
  obtain ⟨hm, hexp, hn, hr, hv⟩ := ccMultiAZ_mem _ _ _ _ _ _ h
  exact ⟨⟨ids, hids, chosen, hv ▸ hvv⟩, hm, hexp, hn, hr⟩

theorem ccRegion_mem (a : CCArgs) (env : CCEnv) (name : String) (s : Spec)
    (h : Event.createCluster s ∈ (ccRegion a env name).1) :
    s.region ≠ "" ∧
    (∃ ids, env.getVersions = Except.ok ids ∧
      ∃ v, validateVersion v (getVersionList ids) = Except.ok s.version) ∧
    (∃ mts, env.getMachineTypes = Except.ok mts ∧
      validateMachineType s.computeMachineType mts = Except.ok s.computeMachineType) ∧
    (∃ exp, validateExpiration env.parse env.now a.expirationTime a.expirationDuration =
      Except.ok exp) ∧
    s.name = name := by
  unfold ccRegion at h
  split at h
  · exact absurd h (by simp)
  rename_i region0 h0
  split at h
  · exact absurd h (by simp)
  rename_i rl hrl
  split at h
  · exact absurd h (by simp)
  rename_i region hpr
  split at h
  · exact absurd h (by simp)
  rename_i hne
  simp only [consEv, List.mem_cons] at h
  rcases h with h | h
  · exact absurd h (by simp)
  obtain ⟨hver, hm, hexp, hn, hr⟩ := ccVersion_mem _ _ _ _ _ h
  exact ⟨hr ▸ hne, hver, hm, hexp, hn⟩

theorem ccName_mem (a : CCArgs) (env : CCEnv) (s : Spec)
    (h : Event.createCluster s ∈ (ccName a env).1) :
    IsValidClusterKey s.name = true ∧
    s.region ≠ "" ∧
    (∃ ids, env.getVersions = Except.ok ids ∧
      ∃ v, validateVersion v (getVersionList ids) = Except.ok s.version) ∧
    (∃ mts, env.getMachineTypes = Except.ok mts ∧
      validateMachineType s.computeMachineType mts = Except.ok s.computeMachineType) ∧
    (∃ exp, validateExpiration env.parse env.now a.expirationTime a.expirationDuration =
      Except.ok exp) := by
  unfold ccName at h
  split at h
  · exact absurd h (by simp)
  rename_i name hpn
  split at h
  · exact absurd h (by simp)
  rename_i hval
  obtain ⟨hre, hver, hm, hexp, hn⟩ := ccRegion_mem _ _ _ _ h
  refine ⟨?_, hre, hver, hm, hexp⟩
  rw [hn]
  exact (Bool.not_eq_false _).mp hval

/-- C4: a `CreateCluster` request is only ever issued with a configuration
that passed every validation: a valid cluster name, a non-empty region, a
version and a machine type accepted by their allow-list validators, and
non-conflicting expiration flags; any input failing one of these makes the
run exit before the call. -/
theorem C4_validation_before_create :
    ∀ (a : CCArgs) (env : CCEnv) (s : Spec),
      Event.createCluster s ∈ (createClusterRun a env).1 →
      IsValidClusterKey s.name = true ∧
      s.region ≠ "" ∧
      (∃ ids, env.getVersions = Except.ok ids ∧
        ∃ v, validateVersion v (getVersionList ids) = Except.ok s.version) ∧
      (∃ mts, env.getMachineTypes = Except.ok mts ∧
        validateMachineType s.computeMachineType mts = Except.ok s.computeMachineType) ∧
      (∃ exp, validateExpiration env.parse env.now a.expirationTime a.expirationDuration =
        Except.ok exp) := by
  intro a env s h
  unfold createClusterRun at h
  cases hc : env.ocmConnBuild with
  | error e => rw [hc] at h; simp at h
  | ok u =>
    rw [hc] at h
    simp only [consEv, List.mem_cons] at h
    rcases h with h | h
    · exact absurd h (by simp)
    · exact ccName_mem _ _ _ h

/-- C4 instance: the demo run issues `CreateCluster` and its configuration
satisfies every validated property. -/
theorem C4_witness :
    IsValidClusterKey ccSpecDemo.name = true ∧
    ccSpecDemo.region ≠ "" ∧
    (∃ ids, ccEnvDemo.getVersions = Except.ok ids ∧
      ∃ v, validateVersion v (getVersionList ids) = Except.ok ccSpecDemo.version) ∧
    (∃ mts, ccEnvDemo.getMachineTypes = Except.ok mts ∧
      validateMachineType ccSpecDemo.computeMachineType mts =
        Except.ok ccSpecDemo.computeMachineType) ∧
    (∃ exp, validateExpiration ccEnvDemo.parse ccEnvDemo.now
      ccArgsDemoGood.expirationTime ccArgsDemoGood.expirationDuration =
        Except.ok exp) :=
  C4_validation_before_create ccArgsDemoGood ccEnvDemo ccSpecDemo (by decide)

/-! ## C5. -/

/-- C5: each comma-separated admin list is processed strictly in list
order, one username at a time — the sequence of build attempts equals the
split list whatever the per-item results; a failed build skips only that
item's add request and the loop continues; and under an otherwise
successful environment the run completes normally however many items fail
(no abort, no retry). -/
theorem C5_user_batch_loop :
    (∀ (env : UserEnv) (group cid : String) (names : List String),
      (addUsersEvents env group cid names).filterMap
        (fun e => match e with | Event.userBuild u => some u | _ => none) = names) ∧
    (∀ (env : UserEnv) (group cid u : String) (rest : List String) (e : String),
      env.userBuild u = Except.error e →
      addUsersEvents env group cid (u :: rest) =
        Event.userBuild u :: addUsersEvents env group cid rest) ∧
    (∀ (k ca da : String) (env : UserEnv) (c : BasicCluster) (arn : String),
      IsValidClusterKey k = true → env.awsClientBuild = Except.ok () →
      env.getCreator = Except.ok arn → env.ocmConnBuild = Except.ok () →
      env.getCluster = Except.ok c → c.state = ClusterState.ready → ca ≠ "" →
      (userRun k ca da env).2 = Outcome.ok ∧
      (userRun k ca da env).1 =
        userPrefix k ++ addUsersEvents env "cluster-admins" c.id (ca.splitOn ",") ++
          (if da ≠ "" then addUsersEvents env "dedicated-admins" c.id (da.splitOn ",")
           else [])) := by
  refine ⟨?_, ?_, ?_⟩
  · intro env group cid names
    induction names with
    | nil => simp [addUsersEvents]
    | cons u rest ih =>
      cases hu : env.userBuild u with
      | error e => simp [addUsersEvents, hu, ih]
      | ok v => simp [addUsersEvents, hu, ih]
  · intro env group cid u rest e h
    simp [addUsersEvents, h]
  · intro k ca da env c arn hk h1 h2 h3 h4 hs hca
    constructor <;> simp [userRun, resolveAdmins, hk, h1, h2, h3, h4, hs, hca]

/-- C5 instance: with the build failing for "bob" and the add request
failing for "carol", all three usernames are still attempted in order and
the run completes normally. -/
theorem C5_witness :
    ((addUsersEvents demoUserEnvPartial "cluster-admins" "1a2b3c"
        ("alice,bob,carol".splitOn ",")).filterMap
      (fun e => match e with | Event.userBuild u => some u | _ => none) =
      "alice,bob,carol".splitOn ",") ∧
    (userRun "mycluster" "alice,bob,carol" "" demoUserEnvPartial).2 = Outcome.ok :=
  ⟨C5_user_batch_loop.1 demoUserEnvPartial "cluster-admins" "1a2b3c" _,
   (C5_user_batch_loop.2.2 "mycluster" "alice,bob,carol" "" demoUserEnvPartial
      demoClusterReady "arn-string" (by decide) rfl rfl rfl rfl rfl (by decide)).1⟩

/-! ## C9. -/

/-- C9: when the fetched cluster is not in the ready state, install-addon
and create-user report that the cluster is not yet ready and exit with
status 1, without issuing any add-on parameter fetch, installation or
group-membership request. -/
theorem C9_ready_state_gate :
    (∀ (k aid : String) (env : AddonEnv) (c : BasicCluster) (arn : String),
      aid ≠ "" → IsValidClusterKey k = true →
      env.awsClientBuild = Except.ok () → env.getCreator = Except.ok arn →
      env.ocmConnBuild = Except.ok () → env.getCluster = Except.ok c →
      c.state ≠ ClusterState.ready →
      addonRun k [aid] env =
        (addonPrefix k, Outcome.exited 1 ("Cluster '" ++ k ++ "' is not yet ready")) ∧
      (∀ x, Event.installAddOn x ∉ (addonRun k [aid] env).1) ∧
      (∀ x, Event.getAddOnParameters x ∉ (addonRun k [aid] env).1)) ∧
    (∀ (k ca da : String) (env : UserEnv) (c : BasicCluster) (arn : String),
      IsValidClusterKey k = true →
      env.awsClientBuild = Except.ok () → env.getCreator = Except.ok arn →
      env.ocmConnBuild = Except.ok () → env.getCluster = Except.ok c →
      c.state ≠ ClusterState.ready →
      userRun k ca da env =
        (userPrefix k, Outcome.exited 1 ("Cluster '" ++ k ++ "' is not yet ready")) ∧
      (∀ g cid u, Event.addUserToGroup g cid u ∉ (userRun k ca da env).1)) := by
  refine ⟨?_, ?_⟩
  · intro k aid env c arn haid hk h1 h2 h3 h4 hs
    have heq : addonRun k [aid] env =
        (addonPrefix k, Outcome.exited 1 ("Cluster '" ++ k ++ "' is not yet ready")) := by
      simp [addonRun, haid, hk, h1, h2, h3, h4, hs]
    refine ⟨heq, ?_, ?_⟩ <;> intro x <;> rw [heq] <;> simp [addonPrefix]
  · intro k ca da env c arn hk h1 h2 h3 h4 hs
    have heq : userRun k ca da env =
        (userPrefix k, Outcome.exited 1 ("Cluster '" ++ k ++ "' is not yet ready")) := by
      simp [userRun, hk, h1, h2, h3, h4, hs]
    refine ⟨heq, ?_⟩
    intro g cid u
    rw [heq]
    simp [userPrefix]

/-- C9 instance: on a cluster still installing, both commands stop with
the not-yet-ready error. -/
theorem C9_witness :
    addonRun "mycluster" ["codeready-workspaces"] demoAddonEnvNotReady =
      (addonPrefix "mycluster",
       Outcome.exited 1 ("Cluster '" ++ "mycluster" ++ "' is not yet ready")) ∧
    userRun "mycluster" "alice" "" demoUserEnvNotReady =
      (userPrefix "mycluster",
       Outcome.exited 1 ("Cluster '" ++ "mycluster" ++ "' is not yet ready")) :=
  ⟨(C9_ready_state_gate.1 "mycluster" "codeready-workspaces" demoAddonEnvNotReady
      demoClusterInstalling "arn-string" (by decide) (by decide) rfl rfl rfl rfl
      (by decide)).1,
   (C9_ready_state_gate.2 "mycluster" "alice" "" demoUserEnvNotReady
      demoClusterInstalling "arn-string" (by decide) rfl rfl rfl rfl (by decide)).1⟩

/-! ## C6: exit-code lemmas per stage and per command. -/

theorem consEv_snd (e : Event) (r : List Event × Outcome) : (consEv e r).2 = r.2 := rfl

theorem ccCreate_code (a : CCArgs) (env : CCEnv) (spec : Spec) :
    exitCode (ccCreate a env spec).2 = 0 ∨ exitCode (ccCreate a env spec).2 = 1 := by
  unfold ccCreate
  repeat' split
  all_goals try (exact Or.inl rfl)
  all_goals exact Or.inr rfl

theorem ccNetwork_code (a : CCArgs) (env : CCEnv) (name region version : String)
    (multiAZ : Bool) (cmt : String) (cn exp : Int) :
    exitCode (ccNetwork a env name region version multiAZ cmt cn exp).2 = 0 ∨
    exitCode (ccNetwork a env name region version multiAZ cmt cn exp).2 = 1 := by
  unfold ccNetwork
  repeat' split
  all_goals try (exact Or.inr rfl)
  all_goals exact ccCreate_code _ _ _

theorem ccExpiration_code (a : CCArgs) (env : CCEnv) (name region version : String)
    (multiAZ : Bool) (cmt : String) (cn : Int) :
    exitCode (ccExpiration a env name region version multiAZ cmt cn).2 = 0 ∨
    exitCode (ccExpiration a env name region version multiAZ cmt cn).2 = 1 := by
  unfold ccExpiration
  repeat' split
  all_goals try (exact Or.inr rfl)
  all_goals exact ccNetwork_code _ _ _ _ _ _ _ _ _

theorem ccComputeNodes_code (a : CCArgs) (env : CCEnv) (name region version : String)
    (multiAZ : Bool) (cmt : String) :
    exitCode (ccComputeNodes a env name region version multiAZ cmt).2 = 0 ∨
    exitCode (ccComputeNodes a env name region version multiAZ cmt).2 = 1 := by
  unfold ccComputeNodes
  repeat' split
  all_goals try (exact Or.inr rfl)
  all_goals exact ccExpiration_code _ _ _ _ _ _ _ _

theorem ccMachineType_code (a : CCArgs) (env : CCEnv) (name region version : String)
    (multiAZ : Bool) :
    exitCode (ccMachineType a env name region version multiAZ).2 = 0 ∨
    exitCode (ccMachineType a env name region version multiAZ).2 = 1 := by
  unfold ccMachineType
  repeat' split
  all_goals try (exact Or.inr rfl)
  all_goals exact ccComputeNodes_code _ _ _ _ _ _ _

theorem ccMultiAZ_code (a : CCArgs) (env : CCEnv) (name region version : String) :
    exitCode (ccMultiAZ a env name region version).2 = 0 ∨
    exitCode (ccMultiAZ a env name region version).2 = 1 := by
  unfold ccMultiAZ
  repeat' split
  all_goals try (exact Or.inr rfl)
  all_goals exact ccMachineType_code _ _ _ _ _ _

theorem ccVersion_code (a : CCArgs) (env : CCEnv) (name region : String) :
    exitCode (ccVersion a env name region).2 = 0 ∨
    exitCode (ccVersion a env name region).2 = 1 := by
  unfold ccVersion
  repeat' split
  all_goals try (exact Or.inr rfl)
  all_goals exact ccMultiAZ_code _ _ _ _ _

theorem ccRegion_code (a : CCArgs) (env : CCEnv) (name : String) :
    exitCode (ccRegion a env name).2 = 0 ∨ exitCode (ccRegion a env name).2 = 1 := by
  unfold ccRegion
  repeat' split
  all_goals try (exact Or.inr rfl)
  all_goals exact ccVersion_code _ _ _ _

theorem ccName_code (a : CCArgs) (env : CCEnv) :
    exitCode (ccName a env).2 = 0 ∨ exitCode (ccName a env).2 = 1 := by
  unfold ccName
  repeat' split
  all_goals try (exact Or.inr rfl)
  all_goals exact ccRegion_code _ _ _

theorem createClusterRun_code (a : CCArgs) (env : CCEnv) :
    exitCode (createClusterRun a env).2 = 0 ∨
    exitCode (createClusterRun a env).2 = 1 := by
  unfold createClusterRun
  repeat' split
  all_goals try (exact Or.inr rfl)
  all_goals exact ccName_code _ _

theorem describeRun_code (k : String) (argv : List String) (env : DescribeEnv) :
    exitCode (describeRun k argv env).2.1 = 0 ∨
    exitCode (describeRun k argv env).2.1 = 1 := by
  unfold describeRun
  repeat' (first | split | dsimp only)
  all_goals try (exact Or.inl rfl)
  all_goals exact Or.inr rfl

theorem addonValidateParam_code (env : AddonEnv) (p : AddOnParameter)
    (res : Except String String) (o : Outcome)
    (h : addonValidateParam env p res = Except.error o) : exitCode o = 1 := by
  cases res with
  | error e =>
    simp [addonValidateParam] at h
    simp [← h, exitCode]
  | ok val =>
    by_cases hv : p.validationRegex = ""
    · simp [addonValidateParam, hv] at h
    · simp only [addonValidateParam] at h
      rw [if_pos hv] at h
      cases hr : env.regexMatch p.validationRegex val with
      | error e =>
        rw [hr] at h
        simp at h
        simp [← h, exitCode]
      | ok b =>
        rw [hr] at h
        cases b
        · simp at h
          simp [← h, exitCode]
        · simp at h

theorem addonProcessParam_code (env : AddonEnv) (p : AddOnParameter) (o : Outcome)
    (h : addonProcessParam env p = Except.error o) : exitCode o = 1 :=
  addonValidateParam_code env p (addonParamValue env p) o h

theorem addonProcessParams_code (env : AddonEnv) (ps : List AddOnParameter) :
    ∀ o : Outcome, addonProcessParams env ps = Except.error o → exitCode o = 1 := by
  induction ps with
  | nil =>
    intro o h
    simp [addonProcessParams] at h
  | cons p rest ih =>
    intro o h
    unfold addonProcessParams at h
    split at h
    · rename_i o2 hp
      simp at h
      subst h
      exact addonProcessParam_code env p o2 hp
    · rename_i val hval
      split at h
      · rename_i o3 hr
        simp at h
        subst h
        exact ih o3 hr
      · simp at h

theorem addonRun_code (k : String) (argv : List String) (env : AddonEnv) :
    exitCode (addonRun k argv env).2 = 0 ∨ exitCode (addonRun k argv env).2 = 1 := by
  unfold addonRun
  repeat' (first | split | dsimp only)
  all_goals try (exact Or.inl rfl)
  all_goals try (exact Or.inr rfl)
  rename_i ho hne
  exact Or.inr (addonProcessParams_code env _ _ ho)

theorem resolveAdmins_code (env : UserEnv) (ca da : String) (o : Outcome)
    (h : resolveAdmins env ca da = Except.error o) : exitCode o = 1 := by
  unfold resolveAdmins at h
  split at h
  · split at h
    · simp at h
      simp [← h, exitCode]
    · split at h
      · simp at h
        simp [← h, exitCode]
      · simp at h
  · simp at h

theorem userRun_code (k ca da : String) (env : UserEnv) :
    exitCode (userRun k ca da env).2 = 0 ∨ exitCode (userRun k ca da env).2 = 1 := by
  unfold userRun
  repeat' (first | split | dsimp only)
  all_goals try (exact Or.inl rfl)
  all_goals try (exact Or.inr rfl)
  rename_i hstate ho
  exact Or.inr (resolveAdmins_code env _ _ _ ho)

theorem idpRun_code (k n : String) (env : IdpEnv) :
    exitCode (idpRun k n env).2 = 0 ∨ exitCode (idpRun k n env).2 = 1 := by
  unfold idpRun
  repeat' (first | split | dsimp only)
  all_goals try (exact Or.inl rfl)
  all_goals exact Or.inr rfl

/-- C6: every embedded command run ends either in a normal return (the
process then exits 0) or in an explicit exit with status 0 (a declined
confirmation) or status 1 (every reported validation or API failure); no
other exit status occurs. -/
theorem C6_exit_codes :
    (∀ (k : String) (argv : List String) (env : DescribeEnv),
      exitCode (describeRun k argv env).2.1 = 0 ∨
      exitCode (describeRun k argv env).2.1 = 1) ∧
    (∀ (a : CCArgs) (env : CCEnv),
      exitCode (createClusterRun a env).2 = 0 ∨
      exitCode (createClusterRun a env).2 = 1) ∧
    (∀ (k : String) (argv : List String) (env : AddonEnv),
      exitCode (addonRun k argv env).2 = 0 ∨ exitCode (addonRun k argv env).2 = 1) ∧
    (∀ (k ca da : String) (env : UserEnv),
      exitCode (userRun k ca da env).2 = 0 ∨ exitCode (userRun k ca da env).2 = 1) ∧
    (∀ (k n : String) (env : IdpEnv),
      exitCode (idpRun k n env).2 = 0 ∨ exitCode (idpRun k n env).2 = 1) :=
  ⟨describeRun_code, createClusterRun_code, addonRun_code, userRun_code, idpRun_code⟩

end Moactl
